import Mathlib

/-!
Verification of the customer-orders analytics backend: a shallow embedding of
the aggregation and pagination query layer (orders router, customers router,
dashboard router, charts router) together with the presentation-side derived
metrics, and proofs of the specified properties.

Conventions of the embedding:
* Calendar dates and timestamps are modelled as natural numbers (abstract day
  numbers respectively instants); SQL DATE comparison is the order on those
  numbers.
* Money (the `total` column, a non-negative decimal) is modelled as a rational
  number.
* SQL rows are Lean structures; a table is a list of rows; WHERE is
  `List.filter`, JOIN is `List.flatMap` over matching partners, ORDER BY is
  `List.insertionSort` with the corresponding relation (SQL leaves the order
  of ties unspecified, which matters only for the revenue ranking and is then
  modelled relationally), LIMIT and OFFSET are `List.take` and `List.drop`,
  COUNT is `List.length`, SUM with COALESCE to zero is `List.sum` over the
  mapped column.
* HTTP query parameters that the routers treat as optional (absent or empty
  string means no filter, per the JavaScript truthiness tests in the code)
  are modelled as `Option` values.
-/

/-- A row of the customers table (id, free-text attributes, timestamps). -/
structure Customer where
  id : Nat
  name : String
  email : String
  phone : String
  address : String
  city : String
  country : String
  created_at : Nat
deriving DecidableEq

/-- A row of the orders table. -/
structure OrderRec where
  id : Nat
  customer_id : Nat
  order_date : Nat
  total : ℚ
  status : String
  created_at : Nat
deriving DecidableEq

/-- The relational store: the customers table and the orders table. -/
structure DB where
  customers : List Customer
  orders : List OrderRec

/-- LIMIT and OFFSET applied to an ordered result set: skip `offset` rows,
return at most `limit` rows. -/
def paginate (limit offset : Nat) (l : List α) : List α :=
  (l.drop offset).take limit

/-- Embeds the JavaScript expression `Math.ceil(a / b)` for natural `a` and
`b`: for `b ≥ 1` this integer formula equals the ceiling of the exact
division, which is proved in `ceilDivNat_eq_ceil` below. -/
def ceilDivNat (a b : Nat) : Nat :=
  (a + b - 1) / b

/-- The pagination metadata object built identically by the orders router and
the customers router: totalPages is `Math.ceil(totalCount / limit)`, hasNext
is `page < totalPages`, hasPrev is `page > 1`. -/
structure Pagination where
  currentPage : Nat
  totalPages : Nat
  totalCount : Nat
  hasNext : Bool
  hasPrev : Bool
deriving DecidableEq

/-- The shared pagination envelope computation of both listing routers. -/
def mkPagination (page limit totalCount : Nat) : Pagination :=
  { currentPage := page
    totalPages := ceilDivNat totalCount limit
    totalCount := totalCount
    hasNext := decide (page < ceilDivNat totalCount limit)
    hasPrev := decide (1 < page) }

/-! ### Orders router: GET /api/orders -/

/-- The optional filters of the orders listing, as the router reads them from
the query string; `none` models an absent or empty parameter (the code tests
JavaScript truthiness of the raw string). -/
structure OrderFilters where
  status : Option String
  customer_id : Option Nat
  start_date : Option Nat
  end_date : Option Nat
deriving DecidableEq

/-- A row of the orders listing: all order columns joined with the name and
email of the matching customer. -/
structure OrderRow where
  ord : OrderRec
  customer_name : String
  customer_email : String
deriving DecidableEq

/-- The inner JOIN `orders o JOIN customers c ON o.customer_id = c.id`: one
row per order-customer pair with matching ids. -/
def joinRows (db : DB) : List OrderRow :=
  db.orders.flatMap (fun o =>
    (db.customers.filter (fun c => c.id == o.customer_id)).map
      (fun c => { ord := o, customer_name := c.name, customer_email := c.email }))

/-- The WHERE clause accumulated by the four `if` blocks of the orders
router: each supplied filter contributes one AND conjunct (exact status,
exact customer id, lower and upper inclusive date bounds). -/
def matchesOrderFilters (f : OrderFilters) (r : OrderRow) : Bool :=
  (match f.status with | none => true | some s => r.ord.status == s) &&
  (match f.customer_id with | none => true | some cid => r.ord.customer_id == cid) &&
  (match f.start_date with | none => true | some d => d ≤ r.ord.order_date) &&
  (match f.end_date with | none => true | some d => r.ord.order_date ≤ d)

/-- The joined and filtered order rows, before ordering and pagination. -/
def ordersFiltered (db : DB) (f : OrderFilters) : List OrderRow :=
  (joinRows db).filter (matchesOrderFilters f)

/-- ORDER BY o.created_at DESC. -/
def newestOrderFirst (a b : OrderRow) : Prop :=
  b.ord.created_at ≤ a.ord.created_at

instance : DecidableRel newestOrderFirst :=
  fun a b => Nat.decLe b.ord.created_at a.ord.created_at

/-- The full result set of the row query without LIMIT and OFFSET. -/
def ordersUnpaginated (db : DB) (f : OrderFilters) : List OrderRow :=
  List.insertionSort newestOrderFirst (ordersFiltered db f)

/-- The result of the count query: COUNT over the identically filtered join. -/
def ordersCount (db : DB) (f : OrderFilters) : Nat :=
  (ordersFiltered db f).length

/-- The page of order rows returned by the router. -/
def ordersRows (db : DB) (f : OrderFilters) (page limit : Nat) : List OrderRow :=
  paginate limit ((page - 1) * limit) (ordersUnpaginated db f)

/-- The JSON body of a successful orders listing response. -/
structure OrdersResponse where
  orders : List OrderRow
  pagination : Pagination
deriving DecidableEq

/-- The orders router handler: rows plus pagination envelope. -/
def ordersResponse (db : DB) (f : OrderFilters) (page limit : Nat) : OrdersResponse :=
  { orders := ordersRows db f page limit
    pagination := mkPagination page limit (ordersCount db f) }

/-! ### Textual construction of the two order queries

The router builds the row query string and the count query string by
appending, inside the same four `if` blocks, the same clause text to both,
while pushing the bound parameter onto a single shared array; the pagination
clause and its two parameters are appended to the row query only, and the
count query is executed with `queryParams.slice(0, -2)`.  We model a query
string as the list of appended fragments, in order. -/

/-- A bound query parameter: a string (status, customer id, date, as read
from the query string) or a number (limit, offset). -/
inductive SqlParam where
  | str (s : String)
  | num (n : Nat)
deriving DecidableEq

/-- The fragments the row query starts from. -/
def ordersRowQueryBase : String :=
  "SELECT o.*, c.name as customer_name, c.email as customer_email FROM orders o JOIN customers c ON o.customer_id = c.id WHERE 1=1"

/-- The fragments the count query starts from. -/
def ordersCountQueryBase : String :=
  "SELECT COUNT(*) FROM orders o JOIN customers c ON o.customer_id = c.id WHERE 1=1"

/-- State of the builder: row query fragments, count query fragments, bound
parameters, next positional parameter index. -/
structure QueryBuild where
  rowFrags : List String
  countFrags : List String
  params : List SqlParam
  paramIndex : Nat
deriving DecidableEq

/-- One `if` block of the router: when the filter value is supplied, append
the clause (rendered at the current parameter index) to both queries and push
the bound value. -/
def addClause (b : QueryBuild) (clause : Nat → String) :
    Option SqlParam → QueryBuild
  | none => b
  | some p =>
      { rowFrags := b.rowFrags ++ [clause b.paramIndex]
        countFrags := b.countFrags ++ [clause b.paramIndex]
        params := b.params ++ [p]
        paramIndex := b.paramIndex + 1 }

/-- The four filter blocks of the orders router, in source order. -/
def buildOrderFilterClauses (f : OrderFilters) : QueryBuild :=
  let b0 : QueryBuild :=
    { rowFrags := [ordersRowQueryBase], countFrags := [ordersCountQueryBase]
      params := [], paramIndex := 1 }
  let b1 := addClause b0 (fun i => " AND o.status = $" ++ toString i)
      (f.status.map .str)
  let b2 := addClause b1 (fun i => " AND o.customer_id = $" ++ toString i)
      (f.customer_id.map (fun c => .num c))
  let b3 := addClause b2 (fun i => " AND o.order_date >= $" ++ toString i)
      (f.start_date.map (fun d => .num d))
  addClause b3 (fun i => " AND o.order_date <= $" ++ toString i)
    (f.end_date.map (fun d => .num d))

/-- The finished row query: filter clauses, then the ORDER BY and pagination
clause, with limit and offset pushed as the last two parameters. -/
def buildOrderRowQuery (f : OrderFilters) (limit offset : Nat) :
    List String × List SqlParam :=
  let b := buildOrderFilterClauses f
  (b.rowFrags ++
     [" ORDER BY o.created_at DESC LIMIT $" ++ toString b.paramIndex ++
        " OFFSET $" ++ toString (b.paramIndex + 1)],
   b.params ++ [.num limit, .num offset])

/-- The finished count query, executed with the shared parameter array minus
its last two entries (`queryParams.slice(0, -2)`). -/
def buildOrderCountQuery (f : OrderFilters) (limit offset : Nat) :
    List String × List SqlParam :=
  let b := buildOrderFilterClauses f
  (b.countFrags,
   (b.params ++ [SqlParam.num limit, SqlParam.num offset]).dropLast.dropLast)

/-! ### Dashboard router: GET /api/dashboard -/

/-- The dashboard summary metrics object. -/
structure DashMetrics where
  totalOrders : Nat
  totalCustomers : Nat
  totalRevenue : ℚ
  pendingOrders : Nat
deriving DecidableEq

/-- The four independent aggregate queries of the dashboard router: COUNT of
orders, COUNT of customers, COALESCE(SUM(total), 0) over orders with status
in (completed, shipped), COUNT of orders with status pending. -/
def dashboardMetrics (db : DB) : DashMetrics :=
  { totalOrders := db.orders.length
    totalCustomers := db.customers.length
    totalRevenue :=
      ((db.orders.filter
          (fun o => o.status == "completed" || o.status == "shipped")).map
        (fun o => o.total)).sum
    pendingOrders := (db.orders.filter (fun o => o.status == "pending")).length }

/-! ### Presentation-side derived metrics (Dashboard component) -/

/-- Embeds `metrics.totalRevenue / (metrics.totalOrders || 1)`: the
JavaScript `|| 1` turns a zero denominator into one and leaves any other
count unchanged. -/
def averageOrderValue (m : DashMetrics) : ℚ :=
  m.totalRevenue / (if m.totalOrders = 0 then 1 else (m.totalOrders : ℚ))

/-- Embeds `((totalOrders - pendingOrders) / (totalOrders || 1)) * 100`. -/
def completionRate (m : DashMetrics) : ℚ :=
  (((m.totalOrders : ℚ) - (m.pendingOrders : ℚ)) /
      (if m.totalOrders = 0 then 1 else (m.totalOrders : ℚ))) * 100

/-! ### SQL LIKE pattern semantics

The customers router interpolates the raw search parameter into the pattern
`'%' ++ search ++ '%'` and compares with ILIKE.  A LIKE pattern is a sequence
of tokens: the percent sign matches any character sequence, the underscore
matches any single character, a backslash escapes the following character,
and every other character matches itself; ILIKE applies this matching
case-insensitively, modelled here by lowercasing both sides first. -/

/-- A lexed token of a LIKE pattern. -/
inductive LikeTok where
  | wild : LikeTok
  | one : LikeTok
  | lit : Char → LikeTok
deriving DecidableEq

/-- Lexing a LIKE pattern: percent and underscore become wildcards, a
backslash escapes the next character, anything else is a literal. -/
def lexLike : List Char → List LikeTok
  | [] => []
  | c :: ps =>
    if c = '%' then LikeTok.wild :: lexLike ps
    else if c = '_' then LikeTok.one :: lexLike ps
    else if c = '\\' then
      match ps with
      | [] => [LikeTok.lit '\\']
      | d :: ps' => LikeTok.lit d :: lexLike ps'
    else LikeTok.lit c :: lexLike ps

/-- LIKE matching of a lexed pattern against a character sequence. -/
def likeMatch : List LikeTok → List Char → Bool
  | [], s => s.isEmpty
  | LikeTok.wild :: ps, s =>
      likeMatch ps s ||
        (match s with
         | [] => false
         | _ :: t => likeMatch (LikeTok.wild :: ps) t)
  | LikeTok.one :: ps, s =>
      (match s with
       | [] => false
       | _ :: t => likeMatch ps t)
  | LikeTok.lit c :: ps, s =>
      (match s with
       | [] => false
       | d :: t => c == d && likeMatch ps t)
termination_by ps s => (ps.length, s.length)

/-- The characters of a string, lowercased. -/
def lowerChars (s : String) : List Char :=
  s.data.map Char.toLower

/-- Postgres ILIKE: case-insensitive LIKE, modelled as LIKE matching of the
lowercased pattern against the lowercased operand. -/
def ilike (pattern s : String) : Bool :=
  likeMatch (lexLike (lowerChars pattern)) (lowerChars s)

/-! ### Customers router: GET /api/customers -/

/-- The WHERE clause of the customers listing: no predicate when the search
parameter is empty (JavaScript truthiness of the raw string), otherwise
`name ILIKE '%search%' OR email ILIKE '%search%'` with the raw parameter
interpolated into the pattern. -/
def customerQualifies (search : String) (c : Customer) : Bool :=
  if search == "" then true
  else
    ilike ("%" ++ search ++ "%") c.name || ilike ("%" ++ search ++ "%") c.email

/-- The orders referencing a given customer. -/
def customerMatchingOrders (db : DB) (c : Customer) : List OrderRec :=
  db.orders.filter (fun o => o.customer_id == c.id)

/-- The LEFT JOIN group of one customer: the matching order rows, or a single
all-null order side when there is none. -/
def leftJoinGroup (db : DB) (c : Customer) : List (Option OrderRec) :=
  match customerMatchingOrders db c with
  | [] => [none]
  | ms => ms.map some

/-- COUNT(o.id) over a LEFT JOIN group: counts the rows whose order side is
not null. -/
def sqlOrderCount (g : List (Option OrderRec)) : Nat :=
  g.countP (fun o => o.isSome)

/-- COALESCE(SUM(o.total), 0) over a LEFT JOIN group: the sum of the non-null
totals, zero when there are none. -/
def sqlTotalSpent (g : List (Option OrderRec)) : ℚ :=
  ((g.filterMap id).map (fun o => o.total)).sum

/-- A row of the customers listing: the customer columns plus the two
aggregates. -/
structure CustomerRow where
  cust : Customer
  order_count : Nat
  total_spent : ℚ
deriving DecidableEq

/-- The GROUP BY c.id row of one customer. -/
def customerRow (db : DB) (c : Customer) : CustomerRow :=
  { cust := c
    order_count := sqlOrderCount (leftJoinGroup db c)
    total_spent := sqlTotalSpent (leftJoinGroup db c) }

/-- The grouped, aggregated result set of the row query before ordering and
pagination: one row per qualifying customer. -/
def customersAggregated (db : DB) (search : String) : List CustomerRow :=
  (db.customers.filter (customerQualifies search)).map (customerRow db)

/-- ORDER BY c.created_at DESC. -/
def newestCustomerFirst (a b : CustomerRow) : Prop :=
  b.cust.created_at ≤ a.cust.created_at

instance : DecidableRel newestCustomerFirst :=
  fun a b => Nat.decLe b.cust.created_at a.cust.created_at

/-- The full ordered result set of the customers row query without LIMIT and
OFFSET. -/
def customersUnpaginated (db : DB) (search : String) : List CustomerRow :=
  List.insertionSort newestCustomerFirst (customersAggregated db search)

/-- The customers count query: SELECT COUNT(*) FROM customers c under the
same search predicate, independent of the grouping. -/
def customersCount (db : DB) (search : String) : Nat :=
  (db.customers.filter (customerQualifies search)).length

/-- The page of customer rows returned by the router. -/
def customersPage (db : DB) (search : String) (page limit : Nat) :
    List CustomerRow :=
  paginate limit ((page - 1) * limit) (customersUnpaginated db search)

/-- The JSON body of a successful customers listing response. -/
structure CustomersResponse where
  customers : List CustomerRow
  pagination : Pagination
deriving DecidableEq

/-- The customers router handler: rows plus pagination envelope. -/
def customersResponse (db : DB) (search : String) (page limit : Nat) :
    CustomersResponse :=
  { customers := customersPage db search page limit
    pagination := mkPagination page limit (customersCount db search) }

/-! ### Charts router: GET /api/charts/orders-over-time -/

/-- The WHERE clause of the orders-over-time query: order_date on or after
CURRENT_DATE minus the interval of `days` days.  There is no upper bound on
order_date in the query. -/
def ordersInWindow (db : DB) (current days : Nat) : List OrderRec :=
  db.orders.filter (fun o => current - days ≤ o.order_date)

/-- A row of the orders-over-time series. -/
structure DateRow where
  date : Nat
  order_count : Nat
  revenue : ℚ
deriving DecidableEq

/-- GROUP BY DATE(order_date) with COUNT and SUM, ORDER BY date ASC: one row
per distinct qualifying date, in ascending date order. -/
def ordersOverTime (db : DB) (current days : Nat) : List DateRow :=
  let qualifying := ordersInWindow db current days
  let dates :=
    List.insertionSort (fun a b : Nat => a ≤ b) (qualifying.map (fun o => o.order_date)).dedup
  dates.map (fun d =>
    { date := d
      order_count := (qualifying.filter (fun o => o.order_date == d)).length
      revenue :=
        ((qualifying.filter (fun o => o.order_date == d)).map
          (fun o => o.total)).sum })

/-! ### Charts router: GET /api/charts/revenue-by-customer -/

/-- A row of the revenue-by-customer ranking (the customer id is carried by
GROUP BY c.id, c.name even though only the name is selected). -/
structure RevenueRow where
  cid : Nat
  name : String
  total_revenue : ℚ
  order_count : Nat
deriving DecidableEq

/-- The completed orders of a customer (the JOIN filtered by status =
completed). -/
def completedOrdersOf (db : DB) (c : Customer) : List OrderRec :=
  db.orders.filter (fun o => o.customer_id == c.id && o.status == "completed")

/-- The GROUP BY c.id, c.name aggregation underlying revenue-by-customer:
one row per customer having at least one completed order. -/
def revenueAgg (db : DB) : List RevenueRow :=
  db.customers.filterMap (fun c =>
    match completedOrdersOf db c with
    | [] => none
    | ms => some
        { cid := c.id, name := c.name
          total_revenue := (ms.map (fun o => o.total)).sum
          order_count := ms.length })

/-- Sorted by total_revenue descending. -/
def revenueDesc (a b : RevenueRow) : Prop :=
  b.total_revenue ≤ a.total_revenue

instance : DecidableRel revenueDesc :=
  fun a b => inferInstanceAs (Decidable (b.total_revenue ≤ a.total_revenue))

/-- The revenue-by-customer query `ORDER BY total_revenue DESC LIMIT n` as a
relation between the store and the possible response bodies: SQL fixes the
result up to the order of rows with equal sort key, so a list is a possible
result exactly when it is the truncation of some revenue-descending
arrangement of the aggregated rows. -/
def revenueByCustomerResult (db : DB) (limit : Nat) (out : List RevenueRow) : Prop :=
  ∃ l, l.Perm (revenueAgg db) ∧ List.Sorted revenueDesc l ∧ out = l.take limit

/-! ### Specification-side comparison notions and concrete stores -/

/-- The specification notion of a case-insensitive substring occurrence: the
lowercased needle occurs contiguously inside the lowercased haystack. -/
def containsCI (needle hay : String) : Prop :=
  lowerChars needle <:+: lowerChars hay

instance (needle hay : String) : Decidable (containsCI needle hay) :=
  List.decidableInfix _ _

/-- The orders listing with no filter supplied. -/
def noFilters : OrderFilters :=
  { status := none, customer_id := none, start_date := none, end_date := none }

/-- The seed of the end-to-end scenario: customer A with two completed orders
totalling 389.98 and customer B with one pending order of 149.50. -/
def seedDB : DB :=
  { customers :=
      [ { id := 1, name := "Alice Anderson", email := "alice@example.com"
          phone := "", address := "", city := "", country := "", created_at := 1 }
      , { id := 2, name := "Bill Brown", email := "bill@example.com"
          phone := "", address := "", city := "", country := "", created_at := 2 } ]
    orders :=
      [ { id := 1, customer_id := 1, order_date := 10
          total := (19999 : ℚ) / 100, status := "completed", created_at := 10 }
      , { id := 2, customer_id := 1, order_date := 11
          total := (18999 : ℚ) / 100, status := "completed", created_at := 11 }
      , { id := 3, customer_id := 2, order_date := 12
          total := (14950 : ℚ) / 100, status := "pending", created_at := 12 } ] }

/-- A store with one customer and one completed order, used to instantiate
the order-filter properties at a concrete input. -/
def filtersDB : DB :=
  { customers :=
      [ { id := 1, name := "Cara", email := "cara@example.com"
          phone := "", address := "", city := "", country := "", created_at := 1 } ]
    orders :=
      [ { id := 1, customer_id := 1, order_date := 10
          total := (100 : ℚ), status := "completed", created_at := 10 } ] }

/-- Combined filters: completed status and an inclusive date range. -/
def combinedFilters : OrderFilters :=
  { status := some "completed", customer_id := none
    start_date := some 5, end_date := some 20 }

/-- A customer without SQL wildcard characters in name or email, used for the
search-predicate properties. -/
def bobCustomer : Customer :=
  { id := 1, name := "Bob", email := "bob@example.com"
    phone := "", address := "", city := "", country := "", created_at := 1 }

/-- A store with two customers tied at completed-order revenue 500 and a
third at 300, the tie-break scenario of the ranking property. -/
def tieDB : DB :=
  { customers :=
      [ { id := 1, name := "A", email := "a@example.com"
          phone := "", address := "", city := "", country := "", created_at := 1 }
      , { id := 2, name := "B", email := "b@example.com"
          phone := "", address := "", city := "", country := "", created_at := 2 }
      , { id := 3, name := "C", email := "c@example.com"
          phone := "", address := "", city := "", country := "", created_at := 3 } ]
    orders :=
      [ { id := 1, customer_id := 1, order_date := 5
          total := (500 : ℚ), status := "completed", created_at := 5 }
      , { id := 2, customer_id := 2, order_date := 6
          total := (500 : ℚ), status := "completed", created_at := 6 }
      , { id := 3, customer_id := 3, order_date := 7
          total := (300 : ℚ), status := "completed", created_at := 7 } ] }

/-- A store whose only order is dated far after the current date, outside any
trailing window that ends today. -/
def futureOrderDB : DB :=
  { customers := []
    orders :=
      [ { id := 1, customer_id := 1, order_date := 100
          total := (50 : ℚ), status := "pending", created_at := 100 } ] }

/-- A store whose only order is dated long before the start of the queried
window. -/
def staleOrderDB : DB :=
  { customers := []
    orders :=
      [ { id := 1, customer_id := 1, order_date := 5
          total := (50 : ℚ), status := "pending", created_at := 5 } ] }

/-! ### Helper lemmas -/

/-- The integer formula of `ceilDivNat` computes the exact ceiling of the
division, which justifies it as the embedding of `Math.ceil(a / b)`. -/
theorem ceilDivNat_eq_ceil (a b : Nat) (hb : 1 ≤ b) :
    (ceilDivNat a b : ℤ) = ⌈(a : ℚ) / (b : ℚ)⌉ := by
  have hb0 : (0 : ℚ) < (b : ℚ) := by exact_mod_cast hb
  have hdiv := Nat.div_add_mod (a + b - 1) b
  have hmod := Nat.mod_lt (a + b - 1) (show 0 < b from hb)
  unfold ceilDivNat
  set q := (a + b - 1) / b with hq
  have h1 : a ≤ b * q := by omega
  have h2 : b * q < a + b := by omega
  have h1q : (a : ℚ) ≤ (b : ℚ) * (q : ℚ) := by exact_mod_cast h1
  have h2q : (b : ℚ) * (q : ℚ) < (a : ℚ) + (b : ℚ) := by exact_mod_cast h2
  clear hdiv hmod hq
  symm
  rw [Int.ceil_eq_iff]
  constructor
  · rw [lt_div_iff₀ hb0]
    push_cast
    nlinarith
  · rw [div_le_iff₀ hb0]
    push_cast
    nlinarith

/-- Zero rows always give zero pages. -/
theorem ceilDivNat_zero (b : Nat) : ceilDivNat 0 b = 0 := by
  unfold ceilDivNat
  rcases b with _ | b
  · rfl
  · exact Nat.div_eq_of_lt (by omega)

/-- Filtering with a pointwise stronger predicate returns at most as many
rows. -/
theorem length_filter_le_of_imp {α : Type} (p q : α → Bool) (l : List α)
    (h : ∀ a, p a = true → q a = true) :
    (l.filter p).length ≤ (l.filter q).length := by
  induction l with
  | nil => simp
  | cons a t ih =>
    by_cases hp : p a = true
    · rw [List.filter_cons_of_pos hp, List.filter_cons_of_pos (h a hp)]
      simpa using ih
    · rw [List.filter_cons_of_neg (by simpa using hp)]
      rcases hq : q a with _ | _
      · rw [List.filter_cons_of_neg (by simp [hq])]
        exact ih
      · rw [List.filter_cons_of_pos hq]
        exact ih.trans (Nat.le_succ _)

/-- Every row produced by the orders JOIN carries the name and email of an
existing customer whose id is the customer id of the order. -/
theorem joinRows_mem (db : DB) (r : OrderRow) (h : r ∈ joinRows db) :
    ∃ c ∈ db.customers, c.id = r.ord.customer_id := by
  unfold joinRows at h
  rw [List.mem_flatMap] at h
  obtain ⟨o, _, hr⟩ := h
  rw [List.mem_map] at hr
  obtain ⟨c, hc, rfl⟩ := hr
  rw [List.mem_filter] at hc
  exact ⟨c, hc.1, by simpa using hc.2⟩

/-! ### C1: pagination envelope -/

/-- C1: for parsed page p >= 1 and limit l >= 1 the envelope satisfies
totalPages = ceil(totalCount / l) (zero count giving zero pages), hasNext =
(p < totalPages), hasPrev = (p > 1), and in both the orders and the
customers listing the envelope is the same pure function of page, limit and
totalCount alone, so identical parameters over unchanged data yield
identical pagination metadata. -/
theorem pagination_envelope_correct (db : DB) (f : OrderFilters) (s : String)
    (page limit totalCount : Nat) (_hp : 1 ≤ page) (hl : 1 ≤ limit) :
    ((mkPagination page limit totalCount).totalPages : ℤ) =
      ⌈(totalCount : ℚ) / (limit : ℚ)⌉ ∧
    (totalCount = 0 → (mkPagination page limit totalCount).totalPages = 0) ∧
    ((mkPagination page limit totalCount).hasNext = true ↔
      page < (mkPagination page limit totalCount).totalPages) ∧
    ((mkPagination page limit totalCount).hasPrev = true ↔ 1 < page) ∧
    (ordersResponse db f page limit).pagination =
      mkPagination page limit (ordersCount db f) ∧
    (customersResponse db s page limit).pagination =
      mkPagination page limit (customersCount db s) := by
  refine ⟨ceilDivNat_eq_ceil totalCount limit hl, ?_, ?_, ?_, rfl, rfl⟩
  · intro h
    subst h
    exact ceilDivNat_zero limit
  · simp [mkPagination]
  · simp [mkPagination]

/-- C1 witness: the envelope of page 2, limit 10, 25 rows. -/
theorem pagination_envelope_correct_witness :
    ((mkPagination 2 10 25).totalPages : ℤ) = ⌈(25 : ℚ) / (10 : ℚ)⌉ ∧
    ((mkPagination 2 10 25).hasPrev = true ↔ 1 < 2) :=
  ⟨(pagination_envelope_correct ⟨[], []⟩ noFilters "" 2 10 25
      (by decide) (by decide)).1,
   (pagination_envelope_correct ⟨[], []⟩ noFilters "" 2 10 25
      (by decide) (by decide)).2.2.2.1⟩

/-! ### C10: derived display metrics -/

/-- C10: the presentation-side metrics satisfy averageOrderValue =
totalRevenue / max(totalOrders, 1) and completionRate = (totalOrders -
pendingOrders) / max(totalOrders, 1) * 100; with zero orders the denominator
is one, no division by zero occurs, and the average order value is zero. -/
theorem derived_metrics_correct (db : DB) :
    averageOrderValue (dashboardMetrics db) =
      (dashboardMetrics db).totalRevenue /
        ((max (dashboardMetrics db).totalOrders 1 : ℕ) : ℚ) ∧
    completionRate (dashboardMetrics db) =
      (((dashboardMetrics db).totalOrders : ℚ) -
          ((dashboardMetrics db).pendingOrders : ℚ)) /
        ((max (dashboardMetrics db).totalOrders 1 : ℕ) : ℚ) * 100 ∧
    ((dashboardMetrics db).totalOrders = 0 →
      averageOrderValue (dashboardMetrics db) = 0) := by
  have hden : ∀ n : Nat,
      (if n = 0 then (1 : ℚ) else (n : ℚ)) = ((max n 1 : ℕ) : ℚ) := by
    intro n
    rcases n with _ | n
    · norm_num
    · have : max (n + 1) 1 = n + 1 := by omega
      rw [if_neg (Nat.succ_ne_zero n), this]
  refine ⟨?_, ?_, ?_⟩
  · rw [averageOrderValue, hden]
  · rw [completionRate, hden]
  · intro h
    have horders : db.orders = [] := by
      have := h
      unfold dashboardMetrics at this
      exact List.length_eq_zero.mp this
    unfold averageOrderValue dashboardMetrics
    rw [horders]
    simp

/-- C10 witness: the empty store has zero orders and average order value
zero. -/
theorem derived_metrics_correct_witness :
    averageOrderValue (dashboardMetrics ⟨[], []⟩) = 0 :=
  (derived_metrics_correct ⟨[], []⟩).2.2 rfl

/-! ### C3: dashboard summary -/

/-- C3: the dashboard summary counts all orders and all customers, sums the
totals of completed and shipped orders as revenue (zero when there are
none), and counts pending orders; on the two-customer seed it returns
totalOrders = 3, totalCustomers = 2, totalRevenue = 389.98, pendingOrders =
1. -/
theorem dashboard_summary_correct :
    dashboardMetrics seedDB =
      { totalOrders := 3, totalCustomers := 2
        totalRevenue := (38998 : ℚ) / 100, pendingOrders := 1 } ∧
    (∀ db : DB,
      (∀ o ∈ db.orders, o.status ≠ "completed" ∧ o.status ≠ "shipped") →
        (dashboardMetrics db).totalRevenue = 0) := by
  constructor
  · have e1 : ("completed" == "completed") = true := by decide
    have e2 : ("completed" == "shipped") = false := by decide
    have e3 : ("pending" == "completed") = false := by decide
    have e4 : ("pending" == "shipped") = false := by decide
    have e5 : ("pending" == "pending") = true := by decide
    have e6 : ("completed" == "pending") = false := by decide
    unfold dashboardMetrics seedDB
    norm_num [List.filter, e1, e2, e3, e4, e5, e6]
  · intro db h
    unfold dashboardMetrics
    have : db.orders.filter
        (fun o => o.status == "completed" || o.status == "shipped") = [] := by
      rw [List.filter_eq_nil_iff]
      intro o ho
      have := h o ho
      simp [this.1, this.2]
    rw [this]
    simp

/-- C3 witness: a store with one cancelled order has zero realized
revenue. -/
theorem dashboard_summary_correct_witness :
    (dashboardMetrics
        ⟨[], [{ id := 1, customer_id := 1, order_date := 1, total := (5 : ℚ)
                status := "cancelled", created_at := 1 }]⟩).totalRevenue = 0 :=
  dashboard_summary_correct.2
    ⟨[], [{ id := 1, customer_id := 1, order_date := 1, total := (5 : ℚ)
            status := "cancelled", created_at := 1 }]⟩
    (by decide)

/-! ### C4: customer listing aggregates -/

/-- Recovering a list from its all-some image under filterMap id, the shape
COALESCE(SUM(..)) takes on a group with order rows. -/
theorem filterMap_id_map_some {α : Type} (l : List α) :
    (l.map some).filterMap id = l := by
  induction l with
  | nil => rfl
  | cons a t ih => simp [List.filterMap_cons, ih]

/-- COUNT(o.id) over a group of non-null order rows is the group size. -/
theorem countP_isSome_map_some {α : Type} (l : List α) :
    (l.map some).countP (fun o => o.isSome) = l.length := by
  induction l with
  | nil => rfl
  | cons a t ih => simp [List.countP_cons, ih]

/-- The aggregated order_count of a customer row is the number of orders
referencing that customer, zero included. -/
theorem customerRow_order_count (db : DB) (c : Customer) :
    (customerRow db c).order_count = (customerMatchingOrders db c).length := by
  unfold customerRow sqlOrderCount leftJoinGroup
  cases h : customerMatchingOrders db c with
  | nil => simp [h]
  | cons m ms =>
    simp only [h]
    exact countP_isSome_map_some (m :: ms)

/-- The aggregated total_spent of a customer row is the sum of the totals of
the orders referencing that customer, zero when there are none. -/
theorem customerRow_total_spent (db : DB) (c : Customer) :
    (customerRow db c).total_spent =
      ((customerMatchingOrders db c).map (fun o => o.total)).sum := by
  unfold customerRow sqlTotalSpent leftJoinGroup
  cases h : customerMatchingOrders db c with
  | nil => simp [h]
  | cons m ms =>
    simp only [h]
    rw [filterMap_id_map_some (m :: ms)]

/-- C4: every returned customer row carries order_count equal to the number
of orders referencing the customer and total_spent equal to the sum of their
totals, both zero (not null) without orders; rows are one per customer
(distinct ids in the store give pairwise distinct ids in the page), and
LIMIT/OFFSET is applied to the grouped aggregated result set (the page is a
contiguous selection of it, of length at most limit). -/
theorem customer_aggregates_correct (db : DB) (search : String)
    (page limit : Nat) :
    (∀ r ∈ customersPage db search page limit,
        r.order_count = (customerMatchingOrders db r.cust).length ∧
        r.total_spent =
          ((customerMatchingOrders db r.cust).map (fun o => o.total)).sum ∧
        (customerMatchingOrders db r.cust = [] →
          r.order_count = 0 ∧ r.total_spent = 0)) ∧
    (db.customers.Pairwise (fun a b => a.id ≠ b.id) →
      (customersPage db search page limit).Pairwise
        (fun a b => a.cust.id ≠ b.cust.id)) ∧
    (customersPage db search page limit).Sublist
      (customersUnpaginated db search) ∧
    (customersPage db search page limit).length ≤ limit := by
  have hsub : (customersPage db search page limit).Sublist
      (customersUnpaginated db search) := by
    unfold customersPage paginate
    exact (List.take_sublist _ _).trans (List.drop_sublist _ _)
  refine ⟨?_, ?_, hsub, ?_⟩
  · intro r hr
    have h1 : r ∈ customersUnpaginated db search := hsub.subset hr
    have h2 : r ∈ customersAggregated db search := by
      unfold customersUnpaginated at h1
      exact (List.perm_insertionSort _ _).subset h1
    unfold customersAggregated at h2
    rw [List.mem_map] at h2
    obtain ⟨c, _, rfl⟩ := h2
    refine ⟨customerRow_order_count db c, customerRow_total_spent db c, ?_⟩
    intro h0
    have h0' : customerMatchingOrders db c = [] := h0
    constructor
    · rw [customerRow_order_count db c, h0']
      rfl
    · rw [customerRow_total_spent db c, h0']
      rfl
  · intro hids
    have hagg : (customersAggregated db search).Pairwise
        (fun a b => a.cust.id ≠ b.cust.id) := by
      unfold customersAggregated
      rw [List.pairwise_map]
      exact List.Pairwise.sublist (List.filter_sublist _) hids
    have hunp : (customersUnpaginated db search).Pairwise
        (fun a b => a.cust.id ≠ b.cust.id) := by
      unfold customersUnpaginated
      exact ((List.perm_insertionSort _ _).pairwise_iff
        (fun h => Ne.symm h)).mpr hagg
    exact List.Pairwise.sublist hsub hunp
  · unfold customersPage paginate
    exact List.length_take_le _ _

/-- C4 witness: on the seed store every page row has correct aggregates and
pairwise distinct customer ids. -/
theorem customer_aggregates_correct_witness :
    (customersPage seedDB "" 1 10).Pairwise
      (fun a b => a.cust.id ≠ b.cust.id) :=
  (customer_aggregates_correct seedDB "" 1 10).2.1 (by decide)

/-! ### C8: orders-over-time series -/

/-- C8 counterexample: the trailing window of 30 days before current date 10
contains no order of the future-dated store, yet the series is not empty,
because the query has no upper date bound and the future-dated order
qualifies. -/
theorem orders_over_time_window_counterexample :
    (∀ o ∈ futureOrderDB.orders,
        ¬ (10 - 30 ≤ o.order_date ∧ o.order_date ≤ 10)) ∧
    ordersOverTime futureOrderDB 10 30 ≠ [] := by
  constructor
  · decide
  · decide

/-- C8 amended: the series has exactly one row per calendar date carrying at
least one order dated on or after currentDate minus days (with no upper
bound, so future-dated orders also appear), rows are sorted strictly
ascending by date, each row carries the count and summed revenue of the
orders of its date, and when no order is dated on or after the window start
the result is the empty array. -/
theorem orders_over_time_characterization (db : DB) (current days : Nat) :
    (ordersOverTime db current days).Pairwise (fun a b => a.date < b.date) ∧
    (∀ d, (∃ r ∈ ordersOverTime db current days, r.date = d) ↔
        (∃ o ∈ db.orders, o.order_date = d ∧ current - days ≤ o.order_date)) ∧
    (∀ r ∈ ordersOverTime db current days,
        r.order_count =
          ((ordersInWindow db current days).filter
            (fun o => o.order_date == r.date)).length ∧
        r.revenue =
          (((ordersInWindow db current days).filter
            (fun o => o.order_date == r.date)).map (fun o => o.total)).sum ∧
        1 ≤ r.order_count) ∧
    ((∀ o ∈ db.orders, ¬ current - days ≤ o.order_date) →
      ordersOverTime db current days = []) := by
  have hq : ordersOverTime db current days =
      (List.insertionSort (fun a b : Nat => a ≤ b)
        ((ordersInWindow db current days).map (fun o => o.order_date)).dedup).map
        (fun d =>
          { date := d
            order_count :=
              ((ordersInWindow db current days).filter
                (fun o => o.order_date == d)).length
            revenue :=
              (((ordersInWindow db current days).filter
                (fun o => o.order_date == d)).map (fun o => o.total)).sum }) := rfl
  have hdates : ∀ d,
      d ∈ List.insertionSort (fun a b : Nat => a ≤ b)
            ((ordersInWindow db current days).map (fun o => o.order_date)).dedup ↔
        ∃ o ∈ db.orders, o.order_date = d ∧ current - days ≤ o.order_date := by
    intro d
    rw [(List.perm_insertionSort _ _).mem_iff, List.mem_dedup, List.mem_map]
    constructor
    · rintro ⟨o, ho, hod⟩
      unfold ordersInWindow at ho
      rw [List.mem_filter] at ho
      exact ⟨o, ho.1, hod, of_decide_eq_true ho.2⟩
    · rintro ⟨o, ho, hod, hwin⟩
      refine ⟨o, ?_, hod⟩
      unfold ordersInWindow
      rw [List.mem_filter]
      exact ⟨ho, decide_eq_true hwin⟩
  refine ⟨?_, ?_, ?_, ?_⟩
  · rw [hq, List.pairwise_map]
    have hsorted :=
      List.sorted_insertionSort (fun a b : Nat => a ≤ b)
        ((ordersInWindow db current days).map (fun o => o.order_date)).dedup
    have hnodup : (List.insertionSort (fun a b : Nat => a ≤ b)
        ((ordersInWindow db current days).map (fun o => o.order_date)).dedup).Nodup :=
      ((List.perm_insertionSort _ _).nodup_iff).mpr (List.nodup_dedup _)
    exact (hsorted.and hnodup).imp (fun h => lt_of_le_of_ne h.1 h.2)
  · intro d
    constructor
    · rintro ⟨r, hr, rfl⟩
      rw [hq, List.mem_map] at hr
      obtain ⟨d', hd', rfl⟩ := hr
      exact (hdates d').mp hd'
    · intro h
      obtain ⟨o, ho, hod, hwin⟩ := h
      rw [hq]
      exact ⟨_, List.mem_map_of_mem _ ((hdates d).mpr ⟨o, ho, hod, hwin⟩), rfl⟩
  · intro r hr
    rw [hq, List.mem_map] at hr
    obtain ⟨d, hd, rfl⟩ := hr
    refine ⟨rfl, rfl, ?_⟩
    obtain ⟨o, ho, hod, hwin⟩ := (hdates d).mp hd
    have hqual : o ∈ ordersInWindow db current days := by
      unfold ordersInWindow
      rw [List.mem_filter]
      exact ⟨ho, decide_eq_true hwin⟩
    have hmem : o ∈ (ordersInWindow db current days).filter
        (fun o' => o'.order_date == d) := by
      rw [List.mem_filter]
      exact ⟨hqual, beq_iff_eq.mpr hod⟩
    exact List.length_pos_of_mem hmem
  · intro h
    have hwin : ordersInWindow db current days = [] := by
      unfold ordersInWindow
      rw [List.filter_eq_nil_iff]
      intro o ho hdec
      exact h o ho (of_decide_eq_true hdec)
    rw [hq, hwin]
    rfl

/-- C8 witness: a store whose only order predates the window start yields
the empty series. -/
theorem orders_over_time_characterization_witness :
    ordersOverTime staleOrderDB 50 10 = [] :=
  (orders_over_time_characterization staleOrderDB 50 10).2.2.2 (by decide)

/-! ### C7: revenue-by-customer ranking determinism -/

/-- The aggregation of the tie store evaluates to two customers at revenue
500 and one at 300. -/
theorem revenueAgg_tieDB :
    revenueAgg tieDB =
      [ { cid := 1, name := "A", total_revenue := 500, order_count := 1 }
      , { cid := 2, name := "B", total_revenue := 500, order_count := 1 }
      , { cid := 3, name := "C", total_revenue := 300, order_count := 1 } ] := by
  have e1 : ("completed" == "completed") = true := by decide
  have n11 : ((1 : ℕ) == 1) = true := by decide
  have n21 : ((2 : ℕ) == 1) = false := by decide
  have n31 : ((3 : ℕ) == 1) = false := by decide
  have n12 : ((1 : ℕ) == 2) = false := by decide
  have n22 : ((2 : ℕ) == 2) = true := by decide
  have n32 : ((3 : ℕ) == 2) = false := by decide
  have n13 : ((1 : ℕ) == 3) = false := by decide
  have n23 : ((2 : ℕ) == 3) = false := by decide
  have n33 : ((3 : ℕ) == 3) = true := by decide
  unfold revenueAgg tieDB completedOrdersOf
  norm_num [List.filterMap_cons, List.filter, e1, n11, n21, n31, n12, n22,
    n32, n13, n23, n33]

/-- C7: the revenue-by-customer query admits two distinct result orders for
the tie store, both truncations of revenue-descending arrangements of the
aggregated rows, so the ranking of tied customers is not determined by the
query: the ORDER BY clause has no tie-break key. -/
theorem revenue_ranking_not_deterministic :
    revenueByCustomerResult tieDB 10
      [ { cid := 1, name := "A", total_revenue := 500, order_count := 1 }
      , { cid := 2, name := "B", total_revenue := 500, order_count := 1 }
      , { cid := 3, name := "C", total_revenue := 300, order_count := 1 } ] ∧
    revenueByCustomerResult tieDB 10
      [ { cid := 2, name := "B", total_revenue := 500, order_count := 1 }
      , { cid := 1, name := "A", total_revenue := 500, order_count := 1 }
      , { cid := 3, name := "C", total_revenue := 300, order_count := 1 } ] ∧
    ([ { cid := 1, name := "A", total_revenue := 500, order_count := 1 }
     , { cid := 2, name := "B", total_revenue := 500, order_count := 1 }
     , { cid := 3, name := "C", total_revenue := 300, order_count := 1 } ] :
        List RevenueRow) ≠
      [ { cid := 2, name := "B", total_revenue := 500, order_count := 1 }
      , { cid := 1, name := "A", total_revenue := 500, order_count := 1 }
      , { cid := 3, name := "C", total_revenue := 300, order_count := 1 } ] := by
  refine
    ⟨⟨[ { cid := 1, name := "A", total_revenue := 500, order_count := 1 }
      , { cid := 2, name := "B", total_revenue := 500, order_count := 1 }
      , { cid := 3, name := "C", total_revenue := 300, order_count := 1 } ],
        ?_, ?_, ?_⟩,
     ⟨[ { cid := 2, name := "B", total_revenue := 500, order_count := 1 }
      , { cid := 1, name := "A", total_revenue := 500, order_count := 1 }
      , { cid := 3, name := "C", total_revenue := 300, order_count := 1 } ],
        ?_, ?_, ?_⟩,
     by decide⟩
  · rw [revenueAgg_tieDB]
  · simp [List.sorted_cons, revenueDesc]
    norm_num
  · rfl
  · rw [revenueAgg_tieDB]
    decide
  · simp [List.sorted_cons, revenueDesc]
    norm_num
  · rfl

/-! ### C6: customer search predicate -/

/-- A single percent token matches every string. -/
theorem likeMatch_all (s : List Char) : likeMatch [LikeTok.wild] s = true := by
  induction s with
  | nil => simp [likeMatch]
  | cons c t ih => simp [likeMatch, ih]

/-- A leading percent token matches exactly the strings with a suffix
matching the rest of the pattern. -/
theorem likeMatch_wild_iff (ps : List LikeTok) (s : List Char) :
    likeMatch (LikeTok.wild :: ps) s = true ↔
      ∃ t, t <:+ s ∧ likeMatch ps t = true := by
  induction s with
  | nil =>
    simp [likeMatch, List.suffix_nil]
  | cons c t ih =>
    have hstep : likeMatch (LikeTok.wild :: ps) (c :: t) =
        (likeMatch ps (c :: t) || likeMatch (LikeTok.wild :: ps) t) := by
      simp [likeMatch]
    rw [hstep, Bool.or_eq_true, ih]
    constructor
    · rintro (h | ⟨u, hu, hlike⟩)
      · exact ⟨c :: t, List.suffix_refl _, h⟩
      · exact ⟨u, hu.trans (List.suffix_cons c t), hlike⟩
    · rintro ⟨u, hu, hlike⟩
      rcases List.suffix_cons_iff.mp hu with h | h
      · subst h
        exact Or.inl hlike
      · exact Or.inr ⟨u, h, hlike⟩

/-- A block of literal tokens consumes exactly itself from the front. -/
theorem likeMatch_lits_iff (w : List Char) (ps : List LikeTok) (s : List Char) :
    likeMatch (w.map LikeTok.lit ++ ps) s = true ↔
      ∃ t, s = w ++ t ∧ likeMatch ps t = true := by
  induction w generalizing s with
  | nil => simp
  | cons a w' ih =>
    cases s with
    | nil =>
      simp [likeMatch]
    | cons d t =>
      have hstep : likeMatch (LikeTok.lit a :: (w'.map LikeTok.lit ++ ps)) (d :: t) =
          (a == d && likeMatch (w'.map LikeTok.lit ++ ps) t) := by
        simp [likeMatch]
      rw [List.map_cons, List.cons_append, hstep, Bool.and_eq_true, ih]
      constructor
      · rintro ⟨ha, u, rfl, hlike⟩
        obtain rfl : a = d := beq_iff_eq.mp ha
        exact ⟨u, by rw [List.cons_append], hlike⟩
      · rintro ⟨u, hu, hlike⟩
        rw [List.cons_append] at hu
        injection hu with h1 h2
        subst h1
        exact ⟨beq_iff_eq.mpr rfl, u, h2, hlike⟩

/-- The pattern percent-literals-percent matches exactly the strings with
the literal block as a contiguous segment. -/
theorem likeMatch_pattern_iff (w s : List Char) :
    likeMatch (LikeTok.wild :: (w.map LikeTok.lit ++ [LikeTok.wild])) s = true ↔
      w <:+: s := by
  rw [likeMatch_wild_iff]
  constructor
  · rintro ⟨t, ⟨pre, rfl⟩, hlike⟩
    rw [likeMatch_lits_iff] at hlike
    obtain ⟨u, rfl, _⟩ := hlike
    exact ⟨pre, u, by rw [List.append_assoc]⟩
  · rintro ⟨pre, post, rfl⟩
    refine ⟨w ++ post, ⟨pre, ?_⟩, ?_⟩
    · rw [← List.append_assoc]
    · rw [likeMatch_lits_iff]
      exact ⟨post, rfl, likeMatch_all post⟩

/-- One unfolding step of the pattern lexer, independent of the shape of the
tail. -/
theorem lexLike_cons (c : Char) (ps : List Char) :
    lexLike (c :: ps) =
      if c = '%' then LikeTok.wild :: lexLike ps
      else if c = '_' then LikeTok.one :: lexLike ps
      else if c = '\\' then
        (match ps with
         | [] => [LikeTok.lit '\\']
         | d :: ps' => LikeTok.lit d :: lexLike ps')
      else LikeTok.lit c :: lexLike ps := by
  cases ps with
  | nil => simp [lexLike]
  | cons d ps' => simp [lexLike]

/-- Lexing a wildcard-free block followed by a percent sign. -/
theorem lexLike_lits (w : List Char)
    (h : ∀ ch ∈ w, ch ≠ '%' ∧ ch ≠ '_' ∧ ch ≠ '\\') :
    lexLike (w ++ ['%']) = w.map LikeTok.lit ++ [LikeTok.wild] := by
  induction w with
  | nil => rfl
  | cons a w' ih =>
    obtain ⟨h1, h2, h3⟩ := h a (List.mem_cons_self a w')
    rw [List.cons_append, List.map_cons, List.cons_append, lexLike_cons,
      if_neg h1, if_neg h2, if_neg h3]
    rw [ih (fun ch hch => h ch (List.mem_cons_of_mem a hch))]

/-- Lexing the interpolated search pattern percent-search-percent when the
search string has no wildcard characters. -/
theorem lexLike_full_pattern (w : List Char)
    (h : ∀ ch ∈ w, ch ≠ '%' ∧ ch ≠ '_' ∧ ch ≠ '\\') :
    lexLike ('%' :: (w ++ ['%'])) =
      LikeTok.wild :: (w.map LikeTok.lit ++ [LikeTok.wild]) := by
  have hstep : lexLike ('%' :: (w ++ ['%'])) =
      LikeTok.wild :: lexLike (w ++ ['%']) := by
    rw [lexLike_cons, if_pos rfl]
  rw [hstep, lexLike_lits w h]

/-- Lowercasing never introduces a LIKE wildcard or escape character. -/
theorem toLower_preserves_safe (c : Char)
    (h : c ≠ '%' ∧ c ≠ '_' ∧ c ≠ '\\') :
    Char.toLower c ≠ '%' ∧ Char.toLower c ≠ '_' ∧ Char.toLower c ≠ '\\' := by
  unfold Char.toLower
  by_cases hc : c.toNat ≥ 65 ∧ c.toNat ≤ 90
  · rw [if_pos hc]
    obtain ⟨hlo, hhi⟩ := hc
    generalize hgen : c.toNat = n at hlo hhi
    interval_cases n <;> exact ⟨by decide, by decide, by decide⟩
  · rw [if_neg hc]
    exact h

/-- The lowercased characters of a wildcard-free search string are still
wildcard-free. -/
theorem lowerChars_safe (s : String)
    (h : ∀ ch ∈ s.data, ch ≠ '%' ∧ ch ≠ '_' ∧ ch ≠ '\\') :
    ∀ ch ∈ lowerChars s, ch ≠ '%' ∧ ch ≠ '_' ∧ ch ≠ '\\' := by
  intro ch hch
  unfold lowerChars at hch
  rw [List.mem_map] at hch
  obtain ⟨c, hc, rfl⟩ := hch
  exact toLower_preserves_safe c (h c hc)

/-- For a wildcard-free search string the interpolated ILIKE test is exactly
the case-insensitive substring test. -/
theorem ilike_contains_iff (needle s : String)
    (h : ∀ ch ∈ needle.data, ch ≠ '%' ∧ ch ≠ '_' ∧ ch ≠ '\\') :
    ilike ("%" ++ needle ++ "%") s = true ↔ containsCI needle s := by
  unfold ilike containsCI
  have htl : Char.toLower '%' = '%' := by decide
  have hdata : lowerChars ("%" ++ needle ++ "%") =
      '%' :: (lowerChars needle ++ ['%']) := by
    unfold lowerChars
    rw [String.data_append, String.data_append]
    simp [List.map_append, htl]
  rw [hdata, lexLike_full_pattern (lowerChars needle) (lowerChars_safe needle h)]
  exact likeMatch_pattern_iff _ _

/-- C6 counterexample: the search string consisting of one percent sign is
non-empty after trimming (it contains a non-whitespace character) and makes
the router predicate accept the customer Bob although neither name nor email
contains a percent sign, because the raw search string is interpolated into
the LIKE pattern where percent is a wildcard. -/
theorem search_wildcard_counterexample :
    ('%' ∈ ("%" : String).data ∧ ¬ '%'.isWhitespace = true) ∧
    customerQualifies "%" bobCustomer = true ∧
    ¬ containsCI "%" bobCustomer.name ∧
    ¬ containsCI "%" bobCustomer.email := by
  refine ⟨⟨by decide, by decide⟩, ?_, by decide, by decide⟩
  have h0 : (("%" : String) == "") = false := by decide
  unfold customerQualifies
  simp only [h0, Bool.false_eq_true, if_false, Bool.or_eq_true]
  left
  unfold ilike
  have hlex : lexLike (lowerChars ("%" ++ "%" ++ "%")) =
      [LikeTok.wild, LikeTok.wild, LikeTok.wild] := by
    have hstep : lexLike (['%'] ++ (['%'] ++ ['%'])) =
        LikeTok.wild :: lexLike (['%'] ++ ['%']) := by
      simp [lexLike]
    have hstep2 : lexLike (['%'] ++ ['%']) =
        LikeTok.wild :: lexLike ['%'] := by
      simp [lexLike]
    have hstep3 : lexLike ['%'] = [LikeTok.wild] := by
      simp [lexLike]
    have hchars : lowerChars ("%" ++ "%" ++ "%") = ['%'] ++ (['%'] ++ ['%']) := by
      unfold lowerChars
      rw [String.data_append, String.data_append]
      decide
    rw [hchars, hstep, hstep2, hstep3]
  rw [hlex]
  rw [show ([LikeTok.wild, LikeTok.wild, LikeTok.wild] : List LikeTok) =
        LikeTok.wild :: [LikeTok.wild, LikeTok.wild] from rfl,
      likeMatch_wild_iff]
  refine ⟨lowerChars bobCustomer.name, List.suffix_refl _, ?_⟩
  rw [show ([LikeTok.wild, LikeTok.wild] : List LikeTok) =
        LikeTok.wild :: [LikeTok.wild] from rfl,
      likeMatch_wild_iff]
  exact ⟨lowerChars bobCustomer.name, List.suffix_refl _,
    likeMatch_all _⟩

/-- C6 amended: for a non-empty search string free of the SQL LIKE wildcard
and escape characters (percent, underscore, backslash), a customer qualifies
if and only if its name or email contains the search string as a
case-insensitive substring; a search string containing those characters is
instead interpreted as a LIKE pattern fragment; when the search parameter is
absent or the empty string, no predicate is applied and every customer
qualifies. -/
theorem search_predicate_correct (search : String) (c : Customer) :
    (search ≠ "" →
      (∀ ch ∈ search.data, ch ≠ '%' ∧ ch ≠ '_' ∧ ch ≠ '\\') →
      (customerQualifies search c = true ↔
        (containsCI search c.name ∨ containsCI search c.email))) ∧
    (search = "" → customerQualifies search c = true) := by
  constructor
  · intro hne hsafe
    have h0 : (search == "") = false := beq_eq_false_iff_ne.mpr hne
    unfold customerQualifies
    simp only [h0, Bool.false_eq_true, if_false, Bool.or_eq_true]
    rw [ilike_contains_iff search c.name hsafe,
      ilike_contains_iff search c.email hsafe]
  · intro h
    subst h
    rfl

/-- C6 witness: for the wildcard-free search string bob the predicate
coincides with the case-insensitive substring test on Bob. -/
theorem search_predicate_correct_witness :
    customerQualifies "bob" bobCustomer = true ↔
      (containsCI "bob" bobCustomer.name ∨
        containsCI "bob" bobCustomer.email) :=
  (search_predicate_correct "bob" bobCustomer).1 (by decide) (by decide)

/-! ### C9: nonexistent customer filter -/

/-- C9: when the customer_id filter matches no existing customer, the orders
listing succeeds with an empty rows array and a pagination envelope with
totalCount = 0, totalPages = 0 and hasNext = false. -/
theorem missing_customer_empty_page (db : DB) (f : OrderFilters)
    (page limit cid : Nat) (hcid : f.customer_id = some cid)
    (hno : ∀ c ∈ db.customers, c.id ≠ cid) :
    ordersResponse db f page limit =
      { orders := [], pagination := mkPagination page limit 0 } ∧
    (ordersResponse db f page limit).pagination.totalCount = 0 ∧
    (ordersResponse db f page limit).pagination.totalPages = 0 ∧
    (ordersResponse db f page limit).pagination.hasNext = false := by
  have hfil : ordersFiltered db f = [] := by
    unfold ordersFiltered
    rw [List.filter_eq_nil_iff]
    intro r hr
    intro hmatch
    obtain ⟨c, hc, hceq⟩ := joinRows_mem db r hr
    unfold matchesOrderFilters at hmatch
    rw [hcid] at hmatch
    simp only [Bool.and_eq_true, beq_iff_eq] at hmatch
    apply hno c hc
    rw [hceq]
    tauto
  have hcount : ordersCount db f = 0 := by
    unfold ordersCount
    rw [hfil]
    rfl
  have hrows : ordersRows db f page limit = [] := by
    unfold ordersRows ordersUnpaginated
    rw [hfil]
    simp [paginate]
  have hresp : ordersResponse db f page limit =
      { orders := [], pagination := mkPagination page limit 0 } := by
    unfold ordersResponse
    rw [hrows, hcount]
  refine ⟨hresp, ?_, ?_, ?_⟩
  · rw [hresp]
    rfl
  · rw [hresp]
    exact ceilDivNat_zero limit
  · rw [hresp]
    show decide (page < ceilDivNat 0 limit) = false
    rw [ceilDivNat_zero]
    simp

/-! ### C2: count query consistency -/

/-- C2: the count query is built from exactly the same filter clauses, in
the same order and with the same bound parameters, as the row query, the row
query differing only by the trailing ORDER BY and LIMIT/OFFSET clause with
its two extra parameters; consequently totalCount equals the number of rows
of the unpaginated row query. -/
theorem count_query_matches_row_query (db : DB) (f : OrderFilters)
    (limit offset : Nat) :
    (∃ clauses ps,
        (buildOrderCountQuery f limit offset).1 =
          ordersCountQueryBase :: clauses ∧
        (buildOrderCountQuery f limit offset).2 = ps ∧
        (buildOrderRowQuery f limit offset).1 =
          ordersRowQueryBase :: clauses ++
            [" ORDER BY o.created_at DESC LIMIT $" ++ toString (ps.length + 1) ++
               " OFFSET $" ++ toString (ps.length + 2)] ∧
        (buildOrderRowQuery f limit offset).2 =
          ps ++ [SqlParam.num limit, SqlParam.num offset]) ∧
    ordersCount db f = (ordersUnpaginated db f).length := by
  constructor
  · rcases f with ⟨s, c, sd, ed⟩
    cases s <;> cases c <;> cases sd <;> cases ed <;>
      exact ⟨_, _, rfl, rfl, rfl, rfl⟩
  · unfold ordersCount ordersUnpaginated
    exact
      (List.perm_insertionSort newestOrderFirst (ordersFiltered db f)).length_eq.symm

/-! ### C5: conjunctive filters and count monotonicity -/

/-- C5: every returned order row satisfies all supplied filters (exact
status, exact customer id, inclusive date bounds) simultaneously, and
removing any one supplied filter never decreases totalCount. -/
theorem order_filters_and_monotone (db : DB) (f : OrderFilters)
    (page limit : Nat) :
    (∀ r ∈ ordersRows db f page limit,
        (∀ s, f.status = some s → r.ord.status = s) ∧
        (∀ cid, f.customer_id = some cid → r.ord.customer_id = cid) ∧
        (∀ d, f.start_date = some d → d ≤ r.ord.order_date) ∧
        (∀ d, f.end_date = some d → r.ord.order_date ≤ d)) ∧
    ordersCount db f ≤ ordersCount db { f with status := none } ∧
    ordersCount db f ≤ ordersCount db { f with customer_id := none } ∧
    ordersCount db f ≤ ordersCount db { f with start_date := none } ∧
    ordersCount db f ≤ ordersCount db { f with end_date := none } := by
  constructor
  · intro r hr
    have h1 : r ∈ ordersUnpaginated db f := by
      unfold ordersRows paginate at hr
      exact ((List.take_sublist _ _).trans (List.drop_sublist _ _)).subset hr
    have hmem : r ∈ ordersFiltered db f := by
      unfold ordersUnpaginated at h1
      exact (List.perm_insertionSort _ _).subset h1
    unfold ordersFiltered at hmem
    rw [List.mem_filter] at hmem
    have hmatch := hmem.2
    unfold matchesOrderFilters at hmatch
    simp only [Bool.and_eq_true] at hmatch
    obtain ⟨⟨⟨hst, hci⟩, hsd⟩, hed⟩ := hmatch
    refine ⟨?_, ?_, ?_, ?_⟩
    · intro s hs
      rw [hs] at hst
      exact beq_iff_eq.mp hst
    · intro cid hc
      rw [hc] at hci
      exact beq_iff_eq.mp hci
    · intro d hd
      rw [hd] at hsd
      exact of_decide_eq_true hsd
    · intro d hd
      rw [hd] at hed
      exact of_decide_eq_true hed
  · refine ⟨?_, ?_, ?_, ?_⟩ <;>
      (apply length_filter_le_of_imp
       intro r h
       unfold matchesOrderFilters at h ⊢
       simp only [Bool.and_eq_true] at h ⊢
       obtain ⟨⟨⟨hst, hci⟩, hsd⟩, hed⟩ := h
       refine ⟨⟨⟨?_, ?_⟩, ?_⟩, ?_⟩ <;> trivial)

/-- C5 witness: the completed order of the one-customer store is returned
under the combined filters, satisfies the status filter, and dropping the
status filter does not decrease the count. -/
theorem order_filters_and_monotone_witness :
    ({ ord := { id := 1, customer_id := 1, order_date := 10, total := (100 : ℚ)
                status := "completed", created_at := 10 }
       customer_name := "Cara"
       customer_email := "cara@example.com" } : OrderRow).ord.status =
      "completed" ∧
    ordersCount filtersDB combinedFilters ≤
      ordersCount filtersDB { combinedFilters with status := none } :=
  ⟨((order_filters_and_monotone filtersDB combinedFilters 1 10).1
      { ord := { id := 1, customer_id := 1, order_date := 10, total := (100 : ℚ)
                 status := "completed", created_at := 10 }
        customer_name := "Cara"
        customer_email := "cara@example.com" } (by decide)).1 "completed" rfl,
   (order_filters_and_monotone filtersDB combinedFilters 1 10).2.1⟩

/-- C9 witness: filtering the one-customer store by the nonexistent customer
id 99 yields the empty zero-count page. -/
theorem missing_customer_empty_page_witness :
    (ordersResponse filtersDB
        { status := none, customer_id := some 99
          start_date := none, end_date := none } 1 10).pagination.totalCount = 0 ∧
    (ordersResponse filtersDB
        { status := none, customer_id := some 99
          start_date := none, end_date := none } 1 10).pagination.hasNext = false :=
  ⟨(missing_customer_empty_page filtersDB _ 1 10 99 rfl (by decide)).2.1,
   (missing_customer_empty_page filtersDB _ 1 10 99 rfl (by decide)).2.2.2⟩
